import Mathlib

/-
Verification of the App.js entry point of the Expo-Apollo repository.

The file embeds, in Lean, the pieces of App.js the specification talks
about:

* the module-level Apollo cache and client (lines 53 and 68-72), modelled
  by an allocation identifier so that object identity is expressible;
* the cache-readiness gate of the App component (lines 74-96): the
  loadingCache state created by useState(true), the useEffect with an
  empty dependency array that calls persistCache and flips the flag in a
  fulfillment handler, and the render branch on loadingCache;
* the Chapter screen option callback (lines 110-119), which destructures
  route.params.chapter and computes a dynamic title and a gesture
  response distance.

JavaScript semantics that matter here and how they are embedded:

* a promise chain p.then(f) with no rejection handler runs f only when p
  fulfills; when p rejects, f is never invoked and nothing else in this
  component observes the rejection.  The gate therefore receives two
  distinct external events, rehydrationResolved and rehydrationRejected,
  and the rejected event leaves the component state untouched;
* useEffect with an empty dependency array runs its callback once, after
  the first render of a mounted component, and never again for that
  component instance;
* a null field is modelled by Option.none, and the truthiness test
  `number ? a : b` treats null and 0 as falsy;
* destructuring route.params.chapter throws a TypeError when params or
  chapter is absent; the option callback is therefore embedded as a
  function into Option, where none is the thrown error.
-/

namespace ExpoApollo

/-! ## Module-level cache and client (App.js lines 53, 68-72) -/

/-- Allocation identifier for a cache object, so that object identity
between the client configuration and the persistCache call site can be
stated. -/
abbrev CacheId := Nat

/-- Identifier of the single InMemoryCache allocated at module load
(App.js line 53, `const cache = new InMemoryCache()`). -/
def moduleCacheId : CacheId := 0

/-- Configuration of the ApolloClient constructed at module load
(App.js lines 68-72). -/
structure ApolloClientCfg where
  uri : String
  cacheId : CacheId
  watchQueryFetchPolicy : String
  deriving DecidableEq

/-- The module-level client: endpoint uri, the module cache, and the
cache-and-network default watchQuery fetch policy. -/
def moduleClient : ApolloClientCfg :=
  { uri := "https://api.graphql.guide/graphql"
    cacheId := moduleCacheId
    watchQueryFetchPolicy := "cache-and-network" }

/-- The cache argument of the persistCache call inside the effect
(App.js lines 88-90): the same module-level binding `cache`. -/
def persistCacheCacheId : CacheId := moduleCacheId

/-- Contents of every allocated cache, keyed by allocation identifier;
records are plain key-value pairs. -/
abbrev CacheHeap := CacheId → List (String × String)

/-- Rehydration writes persisted records into the cache object it was
handed, leaving every other cache object untouched. -/
def rehydrate (h : CacheHeap) (id : CacheId) (data : List (String × String)) :
    CacheHeap :=
  fun i => if i = id then data ++ h i else h i

/-- What the client sees when it consults its configured cache. -/
def clientCacheContents (h : CacheHeap) (c : ApolloClientCfg) :
    List (String × String) :=
  h c.cacheId

/-! ## Chapter route parameters and the option callback (lines 110-119) -/

/-- The chapter object carried by a Chapter route activation; a null
number field is Option.none. -/
structure Chapter where
  number : Option Int
  title : String
  deriving DecidableEq

/-- The params object of a route; the chapter key may be absent. -/
structure RouteParams where
  chapter : Option Chapter
  deriving DecidableEq

/-- A route object; the params field may be absent. -/
structure Route where
  params : Option RouteParams
  deriving DecidableEq

/-- JavaScript truthiness of the number field: null and 0 are falsy,
every other integer is truthy. -/
def jsTruthy : Option Int → Bool
  | none => false
  | some n => decide (n ≠ 0)

/-- String interpolation of the number field inside a template literal. -/
def jsNumberToString : Option Int → String
  | none => "null"
  | some n => toString n

/-- The dynamic title expression of App.js line 117:
number ? interpolated chapter heading : title. -/
def chapterTitle (number : Option Int) (title : String) : String :=
  if jsTruthy number then "Chapter " ++ jsNumberToString number ++ ": " ++ title
  else title

/-- The object returned by the Chapter screen option callback. -/
structure ChapterScreenOpts where
  title : String
  gestureHorizontal : Int
  deriving DecidableEq

/-- The Chapter screen option callback of App.js lines 110-119.  It
destructures route.params.chapter unconditionally, so a route whose
params or chapter is absent makes it throw, embedded as none. -/
def chapterScreenOptions (r : Route) : Option ChapterScreenOpts :=
  match r.params with
  | none => none
  | some p =>
    match p.chapter with
    | none => none
    | some ch =>
      some { title := chapterTitle ch.number ch.title
             gestureHorizontal := 500 }

/-! ## The cache-readiness gate (App.js lines 74-96) -/

/-- Component state of App: the loadingCache flag created by
useState(true), plus bookkeeping of the effect:
whether the empty-dependency effect has already run, and how many
persistCache calls it has issued. -/
structure AppState where
  loadingCache : Bool
  rehydrationStarted : Bool
  rehydrationAttempts : Nat
  deriving DecidableEq

/-- State at process start: useState(true) makes the gate Pending, and
the effect has not run yet. -/
def initialAppState : AppState :=
  { loadingCache := true
    rehydrationStarted := false
    rehydrationAttempts := 0 }

/-- External events the component reacts to: the framework running the
mount effect, and the persistCache promise settling one way or the
other. -/
inductive Event where
  | mount
  | rehydrationResolved
  | rehydrationRejected
  deriving DecidableEq

/-- One step of the component.  mount runs the useEffect callback; with
an empty dependency array it fires only if it has not fired before, and
it issues one persistCache call and returns without touching
loadingCache.  rehydrationResolved is the fulfillment handler of
line 91, setLoadingCache(false).  rehydrationRejected has no handler in
the chain, so it changes nothing. -/
def step (s : AppState) : Event → AppState
  | Event.mount =>
    if s.rehydrationStarted then s
    else { s with rehydrationStarted := true
                  rehydrationAttempts := s.rehydrationAttempts + 1 }
  | Event.rehydrationResolved => { s with loadingCache := false }
  | Event.rehydrationRejected => s

/-- The state after a sequence of events in one process lifetime. -/
def run (events : List Event) : AppState :=
  events.foldl step initialAppState

/-- What the render function of App produces: either the AppLoading
placeholder alone, or the provider-wrapped navigation tree. -/
inductive View where
  | appLoading
  | apolloProvider (client : ApolloClientCfg) (initialRouteName : String)
      (screenNames : List String) (statusBarStyle : String)
  deriving DecidableEq

/-- The render function of App (lines 94-125): while loadingCache it
returns AppLoading and nothing else; afterwards the ApolloProvider with
the module client, the stack navigator with initial route Home and the
two screens, and the light status bar. -/
def render (s : AppState) : View :=
  if s.loadingCache then View.appLoading
  else View.apolloProvider moduleClient "Home" ["Home", "Chapter"] "light"

/-! ## Helper lemmas -/

/-- A step never turns the gate back from Ready to Pending, and the
mount bookkeeping fields are frozen once the effect has run. -/
theorem step_preserves_ready (s : AppState) (e : Event)
    (h : s.loadingCache = false) : (step s e).loadingCache = false := by
  cases e <;> simp [step, h]
  split <;> simp [h]

/-- A step other than the fulfillment handler leaves the gate Pending. -/
theorem step_preserves_pending (s : AppState) (e : Event)
    (hne : e ≠ Event.rehydrationResolved) (h : s.loadingCache = true) :
    (step s e).loadingCache = true := by
  cases e with
  | mount => simp only [step]; split <;> simp [h]
  | rehydrationResolved => exact absurd rfl hne
  | rehydrationRejected => simpa [step] using h

/-- Folding over events free of the fulfillment event keeps the gate
Pending. -/
theorem foldl_preserves_pending :
    ∀ (events : List Event) (s : AppState),
      Event.rehydrationResolved ∉ events → s.loadingCache = true →
      (events.foldl step s).loadingCache = true := by
  intro events
  induction events with
  | nil => intro s _ h; exact h
  | cons e es ih =>
    intro s hmem h
    have hne : e ≠ Event.rehydrationResolved := by
      intro hcontra
      exact hmem (hcontra ▸ List.mem_cons_self e es)
    have hmem2 : Event.rehydrationResolved ∉ es := by
      intro hcontra
      exact hmem (List.mem_cons_of_mem e hcontra)
    exact ih (step s e) hmem2 (step_preserves_pending s e hne h)

/-- Once the effect has run and issued its single attempt, every later
step keeps the started flag set and the attempt count at one. -/
theorem foldl_preserves_started :
    ∀ (events : List Event) (s : AppState),
      s.rehydrationStarted = true → s.rehydrationAttempts = 1 →
      (events.foldl step s).rehydrationStarted = true ∧
      (events.foldl step s).rehydrationAttempts = 1 := by
  intro events
  induction events with
  | nil => intro s h1 h2; exact ⟨h1, h2⟩
  | cons e es ih =>
    intro s h1 h2
    have hstep : (step s e).rehydrationStarted = true ∧
        (step s e).rehydrationAttempts = 1 := by
      cases e <;> simp [step, h1, h2]
    exact ih (step s e) hstep.1 hstep.2

/-- The attempt count is one when the effect has run and zero when it
has not; this is preserved by every step. -/
theorem foldl_attempts_le_one :
    ∀ (events : List Event) (s : AppState),
      (s.rehydrationStarted = true ∧ s.rehydrationAttempts = 1) ∨
        (s.rehydrationStarted = false ∧ s.rehydrationAttempts = 0) →
      ((events.foldl step s).rehydrationStarted = true ∧
          (events.foldl step s).rehydrationAttempts = 1) ∨
        ((events.foldl step s).rehydrationStarted = false ∧
          (events.foldl step s).rehydrationAttempts = 0) := by
  intro events
  induction events with
  | nil => intro s h; exact h
  | cons e es ih =>
    intro s h
    apply ih
    rcases h with ⟨h1, h2⟩ | ⟨h1, h2⟩
    · left; cases e <;> simp [step, h1, h2]
    · cases e with
      | mount => left; simp [step, h1, h2]
      | rehydrationResolved => right; simp [step, h1, h2]
      | rehydrationRejected => right; simp [step, h1, h2]

/-! ## Claim theorems -/

/-- C1 counterexample: with the effect mounted, the rejection of the
rehydration promise leaves the gate Pending while fulfillment opens it,
so the outcome on failure is NOT identical to the outcome on success. -/
theorem rejection_not_identical_to_fulfillment :
    (step (step initialAppState Event.mount) Event.rehydrationRejected).loadingCache ≠
      (step (step initialAppState Event.mount) Event.rehydrationResolved).loadingCache := by
  decide

/-- C1 (amended): the promise chain of line 91 has no rejection handler,
so a rejected rehydration fires no callback and leaves the component
state unchanged — the gate stays Pending; only fulfillment sets
loadingCache to false.  The failure outcome therefore differs from the
success outcome. -/
theorem rejection_is_noop (s : AppState) :
    step s Event.rehydrationRejected = s ∧
      (step s Event.rehydrationResolved).loadingCache = false :=
  ⟨rfl, rfl⟩

/-- C2: the gate is monotone — once loadingCache is false it stays false
after any event, a step that ends Pending started Pending so Ready never
returns to Pending, and a firing of the fulfillment callback when the
gate is already Ready leaves the state exactly unchanged. -/
theorem readiness_transitions_once (s : AppState) (e : Event) :
    (s.loadingCache = false → (step s e).loadingCache = false) ∧
      ((step s e).loadingCache = true → s.loadingCache = true) ∧
      (s.loadingCache = false → step s Event.rehydrationResolved = s) := by
  refine ⟨fun h => step_preserves_ready s e h, ?_, ?_⟩
  · intro h
    by_contra hfalse
    have h2 : s.loadingCache = false := by
      cases hb : s.loadingCache
      · rfl
      · exact absurd hb hfalse
    have := step_preserves_ready s e h2
    rw [h] at this
    exact Bool.noConfusion this
  · intro h
    cases s with
    | mk l st n => simp only [step]; simp_all

/-- C2 witness: at the concrete Ready state reached after mount and
fulfillment, a further event keeps the gate Ready and refiring the
callback is a no-op. -/
theorem readiness_transitions_once_witness :
    (step (AppState.mk false true 1) Event.rehydrationRejected).loadingCache = false ∧
      step (AppState.mk false true 1) Event.rehydrationResolved = AppState.mk false true 1 :=
  ⟨(readiness_transitions_once (AppState.mk false true 1) Event.rehydrationRejected).1 rfl,
   (readiness_transitions_once (AppState.mk false true 1) Event.rehydrationRejected).2.2 rfl⟩

/-- C3: the computed Chapter screen title is the interpolated heading
when the number field is truthy and the bare title otherwise; in
particular number 3 with title Queries gives the interpolated form and a
null number with title Introduction gives the bare title. -/
theorem chapter_title_spec :
    (∀ (number : Option Int) (t : String), jsTruthy number = true →
        chapterTitle number t = "Chapter " ++ jsNumberToString number ++ ": " ++ t) ∧
      (∀ (number : Option Int) (t : String), jsTruthy number = false →
        chapterTitle number t = t) ∧
      chapterTitle (some 3) "Queries" = "Chapter 3: Queries" ∧
      chapterTitle none "Introduction" = "Introduction" := by
  refine ⟨?_, ?_, ?_, rfl⟩
  · intro number t h; simp [chapterTitle, h]
  · intro number t h; simp [chapterTitle, h]
  · decide

/-- C3 witness: the truthiness hypotheses discharged at the two concrete
chapters of the claim. -/
theorem chapter_title_spec_witness :
    (jsTruthy (some 3) = true ∧
      chapterTitle (some 3) "Queries" = "Chapter 3: Queries") ∧
      (jsTruthy none = false ∧ chapterTitle none "Introduction" = "Introduction") :=
  ⟨⟨rfl, by
      have h := chapter_title_spec.1 (some 3) "Queries" rfl
      simpa [jsNumberToString] using h⟩,
   ⟨rfl, chapter_title_spec.2.1 none "Introduction" rfl⟩⟩

/-- C4: the component state at process start has the gate Pending, and
whenever the gate is Pending the render function produces the AppLoading
placeholder and nothing else. -/
theorem pending_renders_placeholder :
    initialAppState.loadingCache = true ∧
      ∀ s : AppState, s.loadingCache = true → render s = View.appLoading := by
  refine ⟨rfl, ?_⟩
  intro s h
  simp [render, h]

/-- C4 witness: at the initial state itself the placeholder is the
render output. -/
theorem pending_renders_placeholder_witness :
    render initialAppState = View.appLoading :=
  pending_renders_placeholder.2 initialAppState rfl

/-- C5: in a run whose events never include the fulfillment of the
rehydration promise, the gate stays Pending forever — there is no
timeout or cancellation event in the component — and the render output
remains the AppLoading placeholder. -/
theorem stalled_rehydration_stays_pending (events : List Event)
    (h : Event.rehydrationResolved ∉ events) :
    (run events).loadingCache = true ∧ render (run events) = View.appLoading := by
  have hpend : (run events).loadingCache = true :=
    foldl_preserves_pending events initialAppState h rfl
  exact ⟨hpend, by simp [render, hpend]⟩

/-- C5 witness: a concrete stalled run — mount happens and the promise
even rejects, but never fulfills — stays Pending with the placeholder
rendered. -/
theorem stalled_rehydration_stays_pending_witness :
    (run [Event.mount, Event.rehydrationRejected]).loadingCache = true ∧
      render (run [Event.mount, Event.rehydrationRejected]) = View.appLoading :=
  stalled_rehydration_stays_pending [Event.mount, Event.rehydrationRejected]
    (by decide)

/-- C6: a run beginning with the mount effect issues exactly one
rehydration attempt and no later event ever issues a second one; any run
at all issues at most one attempt; and the mount step itself returns
with the gate still Pending, i.e. starting rehydration does not block on
its completion. -/
theorem single_rehydration_attempt (events : List Event) :
    (run (Event.mount :: events)).rehydrationAttempts = 1 ∧
      (run events).rehydrationAttempts ≤ 1 ∧
      (step initialAppState Event.mount).loadingCache = true := by
  refine ⟨?_, ?_, rfl⟩
  · have h1 : (step initialAppState Event.mount).rehydrationStarted = true := rfl
    have h2 : (step initialAppState Event.mount).rehydrationAttempts = 1 := rfl
    have := foldl_preserves_started events (step initialAppState Event.mount) h1 h2
    simpa [run] using this.2
  · have := foldl_attempts_le_one events initialAppState (Or.inr ⟨rfl, rfl⟩)
    rcases this with ⟨_, h⟩ | ⟨_, h⟩ <;> simp [run] at h ⊢ <;> omega

/-- C7: whenever the gate is Ready the render function produces the
provider-wrapped navigation tree whose initial route is Home, not the
placeholder. -/
theorem ready_renders_navigation (s : AppState) (h : s.loadingCache = false) :
    render s = View.apolloProvider moduleClient "Home" ["Home", "Chapter"] "light" := by
  simp [render, h]

/-- C7 witness: at the concrete Ready state after mount and fulfillment,
the navigation tree with initial route Home is rendered. -/
theorem ready_renders_navigation_witness :
    render (AppState.mk false true 1) =
      View.apolloProvider moduleClient "Home" ["Home", "Chapter"] "light" :=
  ready_renders_navigation (AppState.mk false true 1) rfl

/-- C8: every successful evaluation of the Chapter screen option
callback yields a gesture response distance whose horizontal component
is 500. -/
theorem chapter_gesture_distance (r : Route) (o : ChapterScreenOpts)
    (h : chapterScreenOptions r = some o) : o.gestureHorizontal = 500 := by
  rcases r with ⟨params⟩
  cases params with
  | none => simp [chapterScreenOptions] at h
  | some p =>
    rcases p with ⟨ch⟩
    cases ch with
    | none => simp [chapterScreenOptions] at h
    | some c =>
      simp only [chapterScreenOptions, Option.some.injEq] at h
      rw [← h]

/-- C8 witness: at the concrete chapter 3 route the callback succeeds
and its gesture response distance is 500. -/
theorem chapter_gesture_distance_witness :
    (ChapterScreenOpts.mk (chapterTitle (some 3) "Queries") 500).gestureHorizontal = 500 :=
  chapter_gesture_distance
    (Route.mk (some (RouteParams.mk (some (Chapter.mk (some 3) "Queries")))))
    (ChapterScreenOpts.mk (chapterTitle (some 3) "Queries") 500) rfl

/-- C9: the Chapter option callback succeeds exactly when the route
carries a params object with a chapter; when params or chapter is absent
it reaches the error branch, and under the precondition that the chapter
is present the error branch is unreachable. -/
theorem chapter_options_requires_param (r : Route) :
    (chapterScreenOptions r).isSome = true ↔
      ∃ p ch, r.params = some p ∧ p.chapter = some ch := by
  rcases r with ⟨params⟩
  cases params with
  | none => simp [chapterScreenOptions]
  | some p =>
    rcases p with ⟨ch⟩
    cases ch <;> simp [chapterScreenOptions]

/-- C9 witness: concretely, a route missing params fails while the
chapter 3 route succeeds, both instances of the equivalence. -/
theorem chapter_options_requires_param_witness :
    (chapterScreenOptions (Route.mk none)).isSome = false ∧
      (chapterScreenOptions
        (Route.mk (some (RouteParams.mk (some (Chapter.mk (some 3) "Queries")))))).isSome = true := by
  constructor
  · rfl
  · exact (chapter_options_requires_param
      (Route.mk (some (RouteParams.mk (some (Chapter.mk (some 3) "Queries")))))).mpr
      ⟨RouteParams.mk (some (Chapter.mk (some 3) "Queries")),
       Chapter.mk (some 3) "Queries", rfl, rfl⟩

/-- C10: the cache handed to persistCache is the very allocation the
client is configured with, so records rehydrated into it are visible in
the cache the client consults. -/
theorem cache_identity_visibility :
    persistCacheCacheId = moduleClient.cacheId ∧
      ∀ (h : CacheHeap) (data : List (String × String)),
        clientCacheContents (rehydrate h persistCacheCacheId data) moduleClient =
          data ++ clientCacheContents h moduleClient := by
  refine ⟨rfl, ?_⟩
  intro h data
  simp [clientCacheContents, rehydrate, persistCacheCacheId, moduleClient,
    moduleCacheId]

end ExpoApollo
